import Mathlib

/-!
# gendeps.c — the generator of the Julia definitions for the TAO C library

A shallow embedding of `src/deps/gendeps.c`.  The program is a build-time
code generator: it measures a few C types of the platform it is compiled for
and prints Julia source text on its standard output.

Conventions of the embedding.

* The C implementation (sizes of the primitive types, representation of the
  library's typedefs and enumerations) is a parameter, `Platform`; the values
  of the constants of `tao.h`, which is not part of the sources, are a second
  parameter, `TaoLib`.
* Values of C integer types are mathematical integers (`Int`); a conversion to
  an integer type is an explicit reduction modulo `2 ^ bits` (`convert`).
* The text written to a stream is a `String`; a function that writes returns
  the text it wrote, and the caller appends it to the stream.
* The translation unit is a valid C program only on platforms where the four
  case labels of the `switch` of `print_integer_alias` are pairwise distinct;
  a result of `none` stands for "there is no program on this platform".
-/

namespace Gendeps

/-! ## Integer types of the C implementation -/

/-- Representation of a C integer type: its size in bytes (`sizeof`) and
whether it is a signed type.  Bytes have 8 bits, as the program itself assumes
when it prints `8*size`. -/
structure CIntType where
  size : Nat
  is_signed : Bool
deriving DecidableEq

/-- Number of value bits plus sign bit of the type. -/
def CIntType.bits (t : CIntType) : Nat := 8 * t.size

/-- Sizes of the primitive types on the platform the generator is compiled
for, the type the compiler chose to represent `enum _test`, the types of the
two members of `struct timespec`, the indeterminate content of an
uninitialised automatic variable, and the expansion of `__FILE__`. -/
structure Platform where
  sizeof_int : Nat
  sizeof_long : Nat
  sizeof_short : Nat
  sizeof_char : Nat
  sizeof_float : Nat
  sizeof_double : Nat
  enum_test : CIntType
  timespec_tv_sec : CIntType
  timespec_tv_nsec : CIntType
  uninitialised : Int
  file : String

/-- Conversion of the value `v` to the integer type `t` (a cast or an
assignment): the value is reduced modulo `2 ^ bits`, into `[0, 2^bits)` for an
unsigned type and into `[-2^(bits-1), 2^(bits-1))` for a signed type (two's
complement). -/
def convert (t : CIntType) (v : Int) : Int :=
  if t.is_signed then
    (v + 2 ^ (t.bits - 1)) % 2 ^ t.bits - 2 ^ (t.bits - 1)
  else
    v % 2 ^ t.bits

/-- The C `int` of the platform. -/
def Platform.int (P : Platform) : CIntType := ⟨P.sizeof_int, true⟩

/-- Integer promotion: an operand of a type narrower than `int` is converted
to `int` before any arithmetic; other types are left alone. -/
def promote (P : Platform) (t : CIntType) : CIntType :=
  if t.size < P.sizeof_int then P.int else t

/-- The operator `~` on an operand of type `t` (already promoted): every bit
of the two's complement pattern is inverted, and the result has type `t`. -/
def complement (t : CIntType) (v : Int) : Int :=
  convert t (~~~v)

/-- Macro `IS_SIGNED(type)`, line 49: `((type)(~(type)0) < (type)0)`.  The
result of `<` is the `int` 1 or 0. -/
def IS_SIGNED (P : Platform) (type : CIntType) : Int :=
  if convert type (complement (promote P type) (convert type 0)) < convert type 0
  then 1 else 0

/-- Assignment `lval = v` to an l-value of type `t`: the previous content is
lost and `v` is converted to `t`. -/
def assign (t : CIntType) (_previous : Int) (v : Int) : Int :=
  convert t v

/-- Macro `SET_ALL_BITS(lval)`, line 60: `lval = 0; lval = ~lval`.  The
argument is the content of the l-value before the macro, the result its
content afterwards; `t` is the type of the l-value, whose content is promoted
before `~` is applied. -/
def SET_ALL_BITS (P : Platform) (t : CIntType) (lval : Int) : Int :=
  let lval₁ := assign t lval 0
  assign t lval₁ (complement (promote P t) lval₁)

/-! ## Formatted output -/

/-- Conversion `%d` (and `%ld`) of `printf`: decimal digits, with a leading
minus sign for a negative value. -/
def fmt_d (v : Int) : String :=
  if v < 0 then "-" ++ Nat.repr v.natAbs else Nat.repr v.natAbs

/-- Spaces that pad a field of `len` characters to the width `width`. -/
def padding (width len : Nat) : String :=
  String.mk (List.replicate (width - len) ' ')

/-- Conversion `%<width>d`: right-justified in a field of `width`. -/
def fmt_wd (width : Nat) (v : Int) : String :=
  padding width (fmt_d v).length ++ fmt_d v

/-- Conversion `%-<width>s`: left-justified in a field of `width`. -/
def fmt_ls (width : Nat) (s : String) : String :=
  s ++ padding width s.length

/-- Conversion `%08x` of an `unsigned int`: lower-case hexadecimal digits,
padded with zeros on the left to 8 digits. -/
def fmt_08x (v : Nat) : String :=
  let digits := Nat.toDigits 16 v
  String.mk (List.replicate (8 - digits.length) '0' ++ digits)

/-! ## `print_integer_alias` -/

/-- Constraint of the C language on the `switch` of `print_integer_alias`
(lines 166-179): no two case labels of one `switch` may have the same value.
The labels are `sizeof(int)`, `sizeof(long)`, `sizeof(short)` and
`sizeof(char)`; when two of them coincide the compiler rejects the
translation unit ("duplicate case value") and there is no program. -/
def case_labels_distinct (P : Platform) : Bool :=
  P.sizeof_int != P.sizeof_long && P.sizeof_int != P.sizeof_short &&
  P.sizeof_int != P.sizeof_char && P.sizeof_long != P.sizeof_short &&
  P.sizeof_long != P.sizeof_char && P.sizeof_short != P.sizeof_char

/-- The `switch (size)` of lines 166-179, on a platform where it is valid:
the text written by the selected case, or `none` when no case label equals
`size` and control leaves the `switch` at its end. -/
def print_integer_alias_switch (P : Platform) (size is_signed : Int) : Option String :=
  if size = P.sizeof_int then
    some (if is_signed ≠ 0 then "Cint" else "Cuint")
  else if size = P.sizeof_long then
    some (if is_signed ≠ 0 then "Clong" else "Culong")
  else if size = P.sizeof_short then
    some (if is_signed ≠ 0 then "Cshort" else "Cushort")
  else if size = P.sizeof_char then
    some (if is_signed ≠ 0 then "Cchar" else "Cuchar")
  else
    none

/-- Function `print_integer_alias(int size, int is_signed, int c_style)`,
lines 162-182.  The result is the text written to `output`; `none` when the
platform gives the `switch` duplicate case labels, so that the function does
not exist there.  The product `8*size` is an `int` product, reduced to the
range of `int`. -/
def print_integer_alias (P : Platform) (size is_signed c_style : Int) : Option String :=
  if case_labels_distinct P then
    match (if c_style ≠ 0 then print_integer_alias_switch P size is_signed else none) with
    | some written => some written
    | none =>
      some ((if is_signed ≠ 0 then "" else "U") ++ "Int" ++ fmt_d (convert P.int (8 * size)))
  else
    none

/-- Macro `PRINT_TYPE_ALIAS(type, style)`, lines 138-139. -/
def PRINT_TYPE_ALIAS (P : Platform) (type : CIntType) (style : Int) : Option String :=
  print_integer_alias P type.size (IS_SIGNED P type) style

/-- Macro `PRINT_LVALUE_ALIAS(lval, style)`, lines 140-144; `t` is the type of
the l-value and `lval` its content before the macro. -/
def PRINT_LVALUE_ALIAS (P : Platform) (t : CIntType) (lval : Int) (style : Int) :
    Option String :=
  let lval₁ := SET_ALL_BITS P t lval
  print_integer_alias P t.size (if lval₁ < 0 then 1 else 0) style

/-! ## The table of element types -/

/-- Enumeration `number_class`, lines 184-189. -/
inductive number_class where
  | UNKNOWN
  | SIGNED
  | UNSIGNED
  | FLOAT
deriving DecidableEq

/-- Constants and types declared by `tao.h` and `tao-cameras.h`, which are
not part of the sources, and the macro `TAO_DLL`: they are parameters of the
generator.  The object types are printed with `%x` and are values of
`unsigned int`. -/
structure TaoLib where
  TAO_DLL : String
  tao_status : CIntType
  tao_shmid : CIntType
  sizeof_tao_object_type : Nat
  sizeof_tao_eltype : Nat
  TAO_ERROR : Int
  TAO_OK : Int
  TAO_TIMEOUT : Int
  TAO_BAD_SHMID : Int
  TAO_SHARED_MAGIC : Nat
  TAO_SHARED_OBJECT : Nat
  TAO_SHARED_ARRAY : Nat
  TAO_SHARED_CAMERA : Nat
  TAO_REMOTE_MIRROR : Nat
  TAO_SHARED_MIRROR_DATA : Nat
  TAO_SHARED_ANY : Nat
  TAO_SHARED_OWNER_SIZE : Int
  TAO_MAX_NDIMS : Int
  TAO_INT8 : Int
  TAO_UINT8 : Int
  TAO_INT16 : Int
  TAO_UINT16 : Int
  TAO_INT32 : Int
  TAO_UINT32 : Int
  TAO_INT64 : Int
  TAO_UINT64 : Int
  TAO_FLOAT : Int
  TAO_DOUBLE : Int
  TAO_CAMERA_STATE_INITIALIZING : Int
  TAO_CAMERA_STATE_SLEEPING : Int
  TAO_CAMERA_STATE_STARTING : Int
  TAO_CAMERA_STATE_ACQUIRING : Int
  TAO_CAMERA_STATE_STOPPING : Int
  TAO_CAMERA_STATE_ABORTING : Int
  TAO_CAMERA_STATE_FINISHED : Int

/-- Element of the array `types`, lines 204-211.  A character pointer is
`none` when it is `NULL`.  The member `id` has the type `tao_eltype`; the
field holds the value stored in it. -/
structure TypeEntry where
  cname : Option String
  tname : Option String
  jname : Option String
  id : Int
  size : Nat
  cls : number_class
deriving DecidableEq

/-- One row of a list such as `ELTYPES`: the arguments of `ITEM` once the
macro of line 212 has stringified the names, pasted the identifier and taken
`sizeof` of the C type. -/
structure Row where
  cname : String
  tname : String
  jname : String
  id : Int
  size : Nat
  cls : number_class
deriving DecidableEq

/-- Macro `ITEM(c,t,j,n)`, line 212: the initialiser
`{#c, "TAO_"#t, #j, TAO_##t, sizeof(c), n}`. -/
def ITEM (r : Row) : TypeEntry :=
  { cname := some r.cname, tname := some ("TAO_" ++ r.tname), jname := some r.jname,
    id := r.id, size := r.size, cls := r.cls }

/-- The terminating element `{NULL, NULL, NULL, 0, 0, 0}`, line 215. -/
def sentinel : TypeEntry :=
  { cname := none, tname := none, jname := none, id := 0, size := 0,
    cls := number_class.UNKNOWN }

/-- An array initialised as `types` is, line 211-216: one element per row and
the terminating element. -/
def types_of (rows : List Row) : List TypeEntry :=
  rows.map ITEM ++ [sentinel]

/-- Macro `ELTYPES`, lines 192-202.  The exact-width types `intN_t` have
`N/8` bytes of 8 bits. -/
def ELTYPES (P : Platform) (L : TaoLib) : List Row :=
  [ ⟨"int8_t", "INT8", "Int8", L.TAO_INT8, 1, number_class.SIGNED⟩,
    ⟨"uint8_t", "UINT8", "UInt8", L.TAO_UINT8, 1, number_class.UNSIGNED⟩,
    ⟨"int16_t", "INT16", "Int16", L.TAO_INT16, 2, number_class.SIGNED⟩,
    ⟨"uint16_t", "UINT16", "UInt16", L.TAO_UINT16, 2, number_class.UNSIGNED⟩,
    ⟨"int32_t", "INT32", "Int32", L.TAO_INT32, 4, number_class.SIGNED⟩,
    ⟨"uint32_t", "UINT32", "UInt32", L.TAO_UINT32, 4, number_class.UNSIGNED⟩,
    ⟨"int64_t", "INT64", "Int64", L.TAO_INT64, 8, number_class.SIGNED⟩,
    ⟨"uint64_t", "UINT64", "UInt64", L.TAO_UINT64, 8, number_class.UNSIGNED⟩,
    ⟨"float", "FLOAT", "Cfloat", L.TAO_FLOAT, P.sizeof_float, number_class.FLOAT⟩,
    ⟨"double", "DOUBLE", "Cdouble", L.TAO_DOUBLE, P.sizeof_double, number_class.FLOAT⟩ ]

/-- The static array `types`, lines 204-216. -/
def types (P : Platform) (L : TaoLib) : List TypeEntry :=
  types_of (ELTYPES P L)

/-! ## The loops of `main` -/

/-- The counting loop of lines 242-245,
`while (types[ntypes].cname != NULL) ++ntypes;`.  The first argument is the
part of the array from index `ntypes` on; reading past the end of the array
has no defined result (`none`). -/
def count_ntypes : List TypeEntry → Nat → Option Nat
  | [], _ => none
  | e :: rest, ntypes =>
    if e.cname ≠ none then count_ntypes rest (ntypes + 1) else some ntypes

/-- A loop `for (int i = start; i < start + count; ++i) body`, whose body
writes text and changes nothing else: the text written by the whole loop, or
`none` when an iteration has no defined result. -/
def for_loop (body : Nat → Option String) : Nat → Nat → Option String
  | _, 0 => some ""
  | i, count + 1 =>
    match body i with
    | none => none
    | some written =>
      match for_loop body (i + 1) count with
      | none => none
      | some more => some (written ++ more)

/-- Call `fputs(s, output)` with a pointer that may be `NULL`: the text
written, and no defined result for a null pointer. -/
def fputs (s : Option String) : Option String := s

/-- The separator written before the element of index `i` by the loops of
lines 366-373 and 379-397: nothing before the first element, a comma and
a new line followed by `indent` every fifth element, a comma and a space
otherwise. -/
def separator (indent : String) (i : Nat) : String :=
  if i > 0 then (if i % 5 = 0 then ",\n" ++ indent else ", ") else ""

/-- Indentation of the continuation lines of the union, line 369. -/
def union_indent : String := "                                      "

/-- Indentation of the continuation lines of the tuple, line 384. -/
def tuple_indent : String := "                                    "

/-- Body of the loop of lines 366-373. -/
def union_body (types : List TypeEntry) (i : Nat) : Option String :=
  match types[i]? with
  | none => none
  | some e =>
    match fputs e.jname with
    | none => none
    | some name => some (separator union_indent i ++ name)

/-- The loop of lines 366-373, which writes the members of the union
`SharedArrayElementTypes`. -/
def emit_union (types : List TypeEntry) (ntypes : Nat) : Option String :=
  for_loop (union_body types) 0 ntypes

/-- The inner loop of lines 387-393, from index `j` with `count` indices left
below `ntypes`: the final value of `found` and the text written.  The loop
stops at the first `j` with `types[j].id == i+1`. -/
def tuple_search (types : List TypeEntry) (i : Nat) : Nat → Nat → Option (Bool × String)
  | _, 0 => some (false, "")
  | j, count + 1 =>
    match types[j]? with
    | none => none
    | some e =>
      if e.id = (i : Int) + 1 then
        match fputs e.jname with
        | none => none
        | some name => some (true, name)
      else
        tuple_search types i (j + 1) count

/-- Body of the loop of lines 379-397. -/
def tuple_body (types : List TypeEntry) (ntypes : Nat) (i : Nat) : Option String :=
  match tuple_search types i 0 ntypes with
  | none => none
  | some (found, name) =>
    some (separator tuple_indent i ++ name ++ (if !found then "Nothing" else ""))

/-- The loop of lines 379-397, which writes the elements of the tuple
`SHARED_ARRAY_ELTYPES`. -/
def emit_tuple (types : List TypeEntry) (ntypes : Nat) : Option String :=
  for_loop (tuple_body types ntypes) 0 ntypes

/-- Body of the loop of lines 406-409:
`fprintf(output, "shared_array_eltype(::Type{%s}) = Cint(%d)\n",
types[i].jname, (int)types[i].id)`.  The cast converts the identifier to
`int`. -/
def dispatch_body (P : Platform) (types : List TypeEntry) (i : Nat) : Option String :=
  match types[i]? with
  | none => none
  | some e =>
    match e.jname with
    | none => none
    | some name =>
      some ("shared_array_eltype(::Type\x7b" ++ name ++ "\x7d) = Cint(" ++
        fmt_d (convert P.int e.id) ++ ")\n")

/-- The catch-all method written by lines 410-411. -/
def dispatch_fallback : String :=
  "@noinline shared_array_eltype(::Type\x7bT\x7d) where T =\n" ++
  "    error(\"unsupported element type \", T)\n"

/-- Lines 406-411: the methods of `shared_array_eltype`. -/
def emit_shared_array_eltype (P : Platform) (types : List TypeEntry) (ntypes : Nat) :
    Option String :=
  match for_loop (dispatch_body P types) 0 ntypes with
  | none => none
  | some clauses => some (clauses ++ dispatch_fallback)

/-! ## `main` -/

/-- What a run of the program leaves behind: the exit code and the text
written to the two streams. -/
structure Outcome where
  status : Int
  stdout : String
  stderr : String
deriving DecidableEq

/-- The macro `EXIT_FAILURE` of `stdlib.h` (1 with the C libraries of the
systems the library is built for). -/
def EXIT_FAILURE : Int := 1

/-- Failure branch of the macro `ASSERT(expr)`, lines 152-160, in function
`func` at line `line`: the message goes to `stderr` and `exit(EXIT_FAILURE)`
ends the run, whose standard output is what had been written before,
`written`. -/
def ASSERT_failed (P : Platform) (written expr func : String) (line : Nat) : Outcome :=
  { status := EXIT_FAILURE,
    stdout := written,
    stderr := "Assertion \x60" ++ expr ++ "\x27 failed in " ++ func ++ " (" ++ P.file ++ ":" ++
      fmt_d line ++ ").\n" }

/-- Macro `DEFINE_LVALUE_ALIAS(name, lval)`, lines 123-128. -/
def DEFINE_LVALUE_ALIAS (P : Platform) (name : String) (t : CIntType) (lval : Int) :
    Option String :=
  match PRINT_LVALUE_ALIAS P t lval 0 with
  | none => none
  | some alias_name => some ("const " ++ name ++ " = " ++ alias_name ++ "\n")

/-- Macro `DEFINE_FIELD_ALIAS(name, type, field)`, lines 129-133; `field` is
the type of the member, and the local `_tmp` is not initialised. -/
def DEFINE_FIELD_ALIAS (P : Platform) (name : String) (field : CIntType) : Option String :=
  DEFINE_LVALUE_ALIAS P name field P.uninitialised

/-- Macro `DEFINE_TYPEOF_FIELD(name, type, field)`, lines 110-111. -/
def DEFINE_TYPEOF_FIELD (P : Platform) (name : String) (field : CIntType) : Option String :=
  DEFINE_FIELD_ALIAS P ("_typeof_" ++ name) field

/-- Macro `DOC_QUOTE`, line 247. -/
def DOC_QUOTE : String := "\"\"\"\n"

/-- The first `PUTS` of `main`, lines 248-264. -/
def banner : String :=
  "#\n" ++
  "# deps.jl --\n" ++
  "#\n" ++
  "# Definitions for the Julia interface to TAO C-library.\n" ++
  "#\n" ++
  "# *IMPORTANT* This file has been automatically generated, do not edit it\n" ++
  "#             directly but rather modify the source in \x60gendeps.c\x60.\n" ++
  "#\n" ++
  "#------------------------------------------------------------------------------\n" ++
  "#\n" ++
  "# This file is part of TAO software (https://git-cral.univ-lyon1.fr/tao)\n" ++
  "# licensed under the MIT license.\n" ++
  "#\n" ++
  "# Copyright (C) 2018-2021, Éric Thiébaut.\n" ++
  "#\n" ++
  "\n" ++
  "# Path to the core TAO dynamic library:\n"

/-- Lines 301-362: the constants printed with the format `FMT`, `"0x%08x"`,
and the two capacities. -/
def object_types (L : TaoLib) : String :=
  String.join [
    "\n", DOC_QUOTE,
    "\x60TaoBindings.SHARED_MAGIC\x60 specifies a, hopefully unique, signature ",
    "stored in\nthe 24 most significant bits of the TAO shared object ",
    "type.\n", DOC_QUOTE,
    "const SHARED_MAGIC = 0x", fmt_08x L.TAO_SHARED_MAGIC, "\n",
    "\n", DOC_QUOTE,
    "\x60TaoBindings.SHARED_OBJECT\x60 is the type of a basic TAO shared ",
    "object.\n", DOC_QUOTE,
    "const SHARED_OBJECT = 0x", fmt_08x L.TAO_SHARED_OBJECT, "\n",
    "\n", DOC_QUOTE,
    "\x60TaoBindings.SHARED_ARRAY\x60 is the type of a TAO shared multi-",
    "dimensional array.\n", DOC_QUOTE,
    "const SHARED_ARRAY = 0x", fmt_08x L.TAO_SHARED_ARRAY, "\n",
    "\n", DOC_QUOTE,
    "\x60TaoBindings.SHARED_CAMERA\x60 is the type of a TAO shared camera ",
    "data.\n", DOC_QUOTE,
    "const SHARED_CAMERA = 0x", fmt_08x L.TAO_SHARED_CAMERA, "\n",
    "\n", DOC_QUOTE,
    "\x60TaoBindings.REMOTE_MIRROR\x60 is the type of a TAO remote deformable ",
    "mirror.\n", DOC_QUOTE,
    "const REMOTE_MIRROR = 0x", fmt_08x L.TAO_REMOTE_MIRROR, "\n",
    "\n", DOC_QUOTE,
    "\x60TaoBindings.SHARED_MIRROR_DATA\x60 is the type of a TAO shared ",
    "deformable mirror data.\n", DOC_QUOTE,
    "const SHARED_MIRROR_DATA = 0x", fmt_08x L.TAO_SHARED_MIRROR_DATA, "\n",
    "\n", DOC_QUOTE,
    "\x60TaoBindings.SHARED_ANY\x60 is the shared object type to use when any ",
    "type is\n",
    "acceptable.\n", DOC_QUOTE,
    "const SHARED_ANY = 0x", fmt_08x L.TAO_SHARED_ANY, "\n",
    "\n", DOC_QUOTE,
    "\x60TaoBindings.SHARED_OWNER_SIZE\x60 is the the number of bytes ",
    "(including the final\nnull) for the name of the owner.\n", DOC_QUOTE,
    "const SHARED_OWNER_SIZE = ", fmt_d L.TAO_SHARED_OWNER_SIZE, "\n",
    "\n", DOC_QUOTE,
    "\x60TaoBindings.MAX_NDIMS\x60 is the maximum number of dimensions of TAO ",
    "arrays.\n", DOC_QUOTE,
    "const MAX_NDIMS = ", fmt_d L.TAO_MAX_NDIMS, "\n" ]

/-- Macro `DEF(x, c)` of lines 414-415:
`fprintf(output, "const ELTYPE_%-6s = %2d # %s\n", #x, TAO_##x, c)`. -/
def DEF_ELTYPE (x : String) (value : Int) (c : String) : String :=
  "const ELTYPE_" ++ fmt_ls 6 x ++ " = " ++ fmt_wd 2 value ++ " # " ++ c ++ "\n"

/-- Lines 412-426: the identifiers of the element types. -/
def eltype_identifiers (L : TaoLib) : String :=
  String.join [
    "\n", "# Identifiers of the type of the elements in an array.\n",
    DEF_ELTYPE "INT8" L.TAO_INT8 "Signed 8-bit integer",
    DEF_ELTYPE "UINT8" L.TAO_UINT8 "Unsigned 8-bit integer",
    DEF_ELTYPE "INT16" L.TAO_INT16 "Signed 16-bit integer",
    DEF_ELTYPE "UINT16" L.TAO_UINT16 "Unsigned 16-bit integer",
    DEF_ELTYPE "INT32" L.TAO_INT32 "Signed 32-bit integer",
    DEF_ELTYPE "UINT32" L.TAO_UINT32 "Unsigned 32-bit integer",
    DEF_ELTYPE "INT64" L.TAO_INT64 "Signed 64-bit integer",
    DEF_ELTYPE "UINT64" L.TAO_UINT64 "Unsigned 64-bit integer",
    DEF_ELTYPE "FLOAT" L.TAO_FLOAT "Single precision floating-point",
    DEF_ELTYPE "DOUBLE" L.TAO_DOUBLE "Double precision floating-point" ]

/-- Macro `DEF(x)` of line 435:
`fprintf(output, "const %-25s = Cint(%d)\n", #x, TAO_##x)`. -/
def DEF_CAMERA (x : String) (value : Int) : String :=
  "const " ++ fmt_ls 25 x ++ " = Cint(" ++ fmt_d value ++ ")\n"

/-- Lines 433-443: the states of a camera. -/
def camera_states (L : TaoLib) : String :=
  String.join [
    "\n", "# The different possible camera states.\n",
    DEF_CAMERA "CAMERA_STATE_INITIALIZING" L.TAO_CAMERA_STATE_INITIALIZING,
    DEF_CAMERA "CAMERA_STATE_SLEEPING" L.TAO_CAMERA_STATE_SLEEPING,
    DEF_CAMERA "CAMERA_STATE_STARTING" L.TAO_CAMERA_STATE_STARTING,
    DEF_CAMERA "CAMERA_STATE_ACQUIRING" L.TAO_CAMERA_STATE_ACQUIRING,
    DEF_CAMERA "CAMERA_STATE_STOPPING" L.TAO_CAMERA_STATE_STOPPING,
    DEF_CAMERA "CAMERA_STATE_ABORTING" L.TAO_CAMERA_STATE_ABORTING,
    DEF_CAMERA "CAMERA_STATE_FINISHED" L.TAO_CAMERA_STATE_FINISHED ]

/-- Macro `DEF(id)` of line 273:
`fprintf(output, "const %-7s = Status(%2d)\n", #id, TAO_##id)`. -/
def DEF_STATUS (id : String) (value : Int) : String :=
  "const " ++ fmt_ls 7 id ++ " = Status(" ++ fmt_wd 2 value ++ ")\n"

/-- Lines 239-443 of `main`: the count of the element types and everything
the program writes to `output`, in the order of the statements.  The result
is `none` when one of the steps has no defined result. -/
def generate (P : Platform) (L : TaoLib) : Option String := do
  let ntypes ← count_ntypes (types P L) 0
  let status_alias ← PRINT_TYPE_ALIAS P L.tao_status 1
  let shmid_alias ← PRINT_TYPE_ALIAS P L.tao_shmid 0
  let enum_alias ← PRINT_TYPE_ALIAS P P.enum_test 1
  let union_members ← emit_union (types P L) ntypes
  let tuple_elements ← emit_tuple (types P L) ntypes
  let methods ← emit_shared_array_eltype P (types P L) ntypes
  let timespec_sec ← DEFINE_TYPEOF_FIELD P "timespec_sec" P.timespec_tv_sec
  let timespec_nsec ← DEFINE_TYPEOF_FIELD P "timespec_nsec" P.timespec_tv_nsec
  pure (banner ++ String.join [
    "const taolib = \"", L.TAO_DLL, "\"\n",
    "\n", "# Possible return values for an operation:\n",
    "struct Status\n", "    val::", status_alias, "\nend\n",
    DEF_STATUS "ERROR" L.TAO_ERROR,
    DEF_STATUS "OK" L.TAO_OK,
    DEF_STATUS "TIMEOUT" L.TAO_TIMEOUT,
    "\n", "# Type used to store a shared memory identifier:\n", "const ShmId = ",
    shmid_alias,
    "\n\n", DOC_QUOTE,
    "\x60TaoBindings.BAD_SHMID\x60 is used to denote an invalid shared memory ",
    "identifier.\n", DOC_QUOTE,
    "const BAD_SHMID = ShmId(", fmt_d (convert ⟨P.sizeof_long, true⟩ L.TAO_BAD_SHMID), ")\n",
    "\n", "# Julia type corresponding to a C enumeration:\n", "const Cenum = ",
    enum_alias, "\n",
    object_types L,
    "\n", "# Union of all element types of TAO shared arrays.\n",
    "const SharedArrayElementTypes = Union\x7b",
    union_members,
    "\x7d\n", "\n",
    "# List of all element types of TAO shared arrays (can be indexed\n",
    "# by TAO element type identifier).\n",
    "const SHARED_ARRAY_ELTYPES = (",
    tuple_elements,
    ")\n", "\n", DOC_QUOTE,
    "    TaoBindings.shared_array_eltype(T) -> id\n", "\n",
    "yields the element type code of TAO shared array corresponding to ",
    "Julia\ntype \x60T\x60.  An error is raised if \x60T\x60 is not supported.\n", DOC_QUOTE,
    methods,
    eltype_identifiers L,
    "\n", "# Julia types of the members of the C \x60timespec\x60 structure.\n",
    timespec_sec, timespec_nsec,
    camera_states L ])

/-- The statement labelled `usage`, lines 225-227: the usage message goes to
`stderr` and `main` returns `status`. -/
def usage (argv : List String) (status : Int) : Outcome :=
  { status := status,
    stdout := "",
    stderr := "Usage: " ++ argv.headD "" ++ " [--help|-h]\n" }

/-- Function `main(int argc, char* argv[])`, lines 218-445; `argc` is the
length of `argv`, whose first element is the name of the program.  The result
is `none` on a platform where the translation unit is not a valid program. -/
def main (P : Platform) (L : TaoLib) (argv : List String) : Option Outcome :=
  if case_labels_distinct P then
    let argc := argv.length
    let status : Int := 0
    if argc = 2 ∧ (argv[1]? = some "--help" ∨ argv[1]? = some "-h") then
      some (usage argv status)
    else if argc > 1 then
      let status : Int := 1
      some (usage argv status)
    else if P.sizeof_int ≠ L.sizeof_tao_object_type then
      some (ASSERT_failed P "" "sizeof(int) == sizeof(tao_object_type)" "main" 236)
    else if P.sizeof_int ≠ L.sizeof_tao_eltype then
      some (ASSERT_failed P "" "sizeof(int) == sizeof(tao_eltype)" "main" 237)
    else
      match generate P L with
      | none => none
      | some written => some { status := 0, stdout := written, stderr := "" }
  else
    none

/-! ## Concrete platforms -/

/-- The LP64 data model (Linux and macOS on 64-bit processors). -/
def lp64 : Platform :=
  { sizeof_int := 4, sizeof_long := 8, sizeof_short := 2, sizeof_char := 1,
    sizeof_float := 4, sizeof_double := 8, enum_test := ⟨4, true⟩,
    timespec_tv_sec := ⟨8, true⟩, timespec_tv_nsec := ⟨8, true⟩,
    uninitialised := 0, file := "gendeps.c" }

/-- A library whose element type identifiers are the positions 1 to 10. -/
def tao : TaoLib :=
  { TAO_DLL := "/usr/local/lib/libtao.so",
    tao_status := ⟨4, true⟩, tao_shmid := ⟨4, true⟩,
    sizeof_tao_object_type := 4, sizeof_tao_eltype := 4,
    TAO_ERROR := -1, TAO_OK := 0, TAO_TIMEOUT := 1, TAO_BAD_SHMID := -1,
    TAO_SHARED_MAGIC := 0x310efc00, TAO_SHARED_OBJECT := 0x310efc00,
    TAO_SHARED_ARRAY := 0x310efc01, TAO_SHARED_CAMERA := 0x310efc02,
    TAO_REMOTE_MIRROR := 0x310efc03, TAO_SHARED_MIRROR_DATA := 0x310efc04,
    TAO_SHARED_ANY := 0xffffffff,
    TAO_SHARED_OWNER_SIZE := 64, TAO_MAX_NDIMS := 5,
    TAO_INT8 := 1, TAO_UINT8 := 2, TAO_INT16 := 3, TAO_UINT16 := 4, TAO_INT32 := 5,
    TAO_UINT32 := 6, TAO_INT64 := 7, TAO_UINT64 := 8, TAO_FLOAT := 9, TAO_DOUBLE := 10,
    TAO_CAMERA_STATE_INITIALIZING := 0, TAO_CAMERA_STATE_SLEEPING := 1,
    TAO_CAMERA_STATE_STARTING := 2, TAO_CAMERA_STATE_ACQUIRING := 3,
    TAO_CAMERA_STATE_STOPPING := 4, TAO_CAMERA_STATE_ABORTING := 5,
    TAO_CAMERA_STATE_FINISHED := 6 }

/-- A library built with short enumerations: `tao_eltype` has one byte. -/
def tao_short_eltype : TaoLib :=
  { tao with sizeof_tao_eltype := 1 }

/-- A library whose result-status enumeration has one byte, while the two
enumerations checked by `main` have the size of `int`. -/
def tao_short_status : TaoLib :=
  { tao with tao_status := ⟨1, true⟩ }

/-- A library whose identifier of `double` is 4294967295, a value of an
unsigned `tao_eltype` of four bytes that no `int` of four bytes holds. -/
def tao_wide_double : TaoLib :=
  { tao with TAO_DOUBLE := 4294967295 }

/-! ## Notions used by the statements -/

/-- The number denoted by a list of decimal digits, most significant first. -/
def digits_value (l : List Char) : Nat :=
  l.foldl (fun a c => 10 * a + (c.toNat - 48)) 0

/-- The values an `int` of the platform can hold: `int` has at least one byte
and `v` lies in `[-2^(bits-1), 2^(bits-1))`. -/
def Platform.int_holds (P : Platform) (v : Int) : Prop :=
  0 < P.sizeof_int ∧ -(2 : Int) ^ (P.int.bits - 1) ≤ v ∧ v < (2 : Int) ^ (P.int.bits - 1)

/-- The name `print_integer_alias` writes at line 181 for a size and a
signedness, when the `int` of the platform holds `8*size`. -/
def fixed_width_name (size : Int) (is_signed : Int) : String :=
  if is_signed ≠ 0 then "Int" ++ fmt_d (8 * size) else "UInt" ++ fmt_d (8 * size)

/-- Size in bytes and signedness of the built-in integer types of Julia, by
name. -/
def julia_integer_type : String → Option CIntType
  | "Int8" => some ⟨1, true⟩
  | "UInt8" => some ⟨1, false⟩
  | "Int16" => some ⟨2, true⟩
  | "UInt16" => some ⟨2, false⟩
  | "Int32" => some ⟨4, true⟩
  | "UInt32" => some ⟨4, false⟩
  | "Int64" => some ⟨8, true⟩
  | "UInt64" => some ⟨8, false⟩
  | _ => none

/-! ## What the loops are to write -/

/-- Concatenation of a list of texts, in order. -/
def concat : List String → String
  | [] => ""
  | s :: rest => s ++ concat rest

/-- A list of names written one after the other, the name of index `i`
(counted from `start`) preceded by `separator indent i`. -/
def separated_from (indent : String) : Nat → List String → String
  | _, [] => ""
  | i, name :: rest => separator indent i ++ name ++ separated_from indent (i + 1) rest

/-- The Julia name of a row, or the placeholder `Nothing` when there is no
row. -/
def name_or_nothing : Option Row → String
  | some r => r.jname
  | none => "Nothing"

/-- The element of the tuple for the identifier `i`: the Julia name of the
first row whose identifier equals `i`, or the placeholder `Nothing` when
no row has that identifier. -/
def tuple_element (rows : List Row) (i : Nat) : String :=
  name_or_nothing (rows.find? (fun r => decide (r.id = (i : Int))))

/-- The elements of the tuple: one for each identifier from 1 to the number
of rows. -/
def tuple_elements (rows : List Row) : List String :=
  (List.range rows.length).map (fun k => tuple_element rows (k + 1))

/-- The method of `shared_array_eltype` that maps the Julia name `name` to
the number `value`. -/
def dispatch_clause (name : String) (value : Int) : String :=
  "shared_array_eltype(::Type\x7b" ++ name ++ "\x7d) = Cint(" ++ fmt_d value ++ ")\n"

/-- A table of three rows whose identifiers are 2, 2 and 7: identifier 1 and
identifier 3 belong to no row. -/
def sparse_rows : List Row :=
  [ ⟨"int8_t", "INT8", "Int8", 2, 1, number_class.SIGNED⟩,
    ⟨"uint8_t", "UINT8", "UInt8", 2, 1, number_class.UNSIGNED⟩,
    ⟨"float", "FLOAT", "Cfloat", 7, 4, number_class.FLOAT⟩ ]

/-! # Theorems -/

/-! ## Decimal output is injective -/

theorem digitChar_value : ∀ d, d < 10 → (Nat.digitChar d).toNat - 48 = d := by decide

theorem digitChar_ne_minus : ∀ d, d < 10 → Nat.digitChar d ≠ '-' := by decide

theorem toDigitsCore_append (fuel : Nat) : ∀ (n : Nat) (ds : List Char),
    Nat.toDigitsCore 10 fuel n ds = Nat.toDigitsCore 10 fuel n [] ++ ds := by
  induction fuel with
  | zero => intro n ds; simp [Nat.toDigitsCore]
  | succ f ih =>
    intro n ds
    simp only [Nat.toDigitsCore]
    split
    · simp
    · rw [ih (n / 10) (_ :: ds), ih (n / 10) [_]]; simp

theorem digits_value_toDigitsCore (fuel : Nat) : ∀ n, n < fuel →
    digits_value (Nat.toDigitsCore 10 fuel n []) = n := by
  induction fuel with
  | zero => intro n h; omega
  | succ f ih =>
    intro n h
    simp only [Nat.toDigitsCore]
    split
    · rename_i h0
      have : n < 10 := by omega
      simp [digits_value, digitChar_value _ (Nat.mod_lt n (by decide : 10 > 0))]
      omega
    · rename_i h0
      rw [toDigitsCore_append]
      have hlt : n / 10 < f := by omega
      have := ih (n / 10) hlt
      simp only [digits_value, List.foldl_append, List.foldl_cons, List.foldl_nil] at this ⊢
      rw [this, digitChar_value _ (Nat.mod_lt n (by decide : 10 > 0))]
      omega

theorem repr_injective {a b : Nat} (h : Nat.repr a = Nat.repr b) : a = b := by
  have h1 : Nat.toDigits 10 a = Nat.toDigits 10 b := congrArg String.data h
  have ha := digits_value_toDigitsCore (a + 1) a (by omega)
  have hb := digits_value_toDigitsCore (b + 1) b (by omega)
  simp only [Nat.toDigits] at h1
  rw [← ha, ← hb, h1]

theorem toDigitsCore_head (fuel : Nat) : ∀ n ds, 0 < fuel →
    ∃ d rest, d < 10 ∧ Nat.toDigitsCore 10 fuel n ds = Nat.digitChar d :: rest := by
  induction fuel with
  | zero => intro n ds h; omega
  | succ f ih =>
    intro n ds _
    simp only [Nat.toDigitsCore]
    split
    · exact ⟨n % 10, ds, Nat.mod_lt n (by decide), rfl⟩
    · rcases f with _ | f
      · exact ⟨n % 10, ds, Nat.mod_lt n (by decide), rfl⟩
      · exact ih (n / 10) _ (by omega)

theorem repr_head (n : Nat) : ∃ d rest, d < 10 ∧ (Nat.repr n).data = Nat.digitChar d :: rest :=
  toDigitsCore_head (n + 1) n [] (by omega)

theorem fmt_d_injective {a b : Int} (h : fmt_d a = fmt_d b) : a = b := by
  unfold fmt_d at h
  have hdata := congrArg String.data h
  by_cases ha : a < 0 <;> by_cases hb : b < 0 <;>
    simp only [ha, hb, if_true, if_false, String.data_append] at hdata
  · have hr : Nat.repr a.natAbs = Nat.repr b.natAbs :=
      String.ext (List.append_cancel_left hdata)
    have := repr_injective hr
    omega
  · obtain ⟨d, rest, hd, hr⟩ := repr_head b.natAbs
    rw [hr] at hdata
    have hc : '-' = Nat.digitChar d := by
      have := List.head_eq_of_cons_eq hdata
      exact this
    exact absurd hc.symm (digitChar_ne_minus d hd)
  · obtain ⟨d, rest, hd, hr⟩ := repr_head a.natAbs
    rw [hr] at hdata
    have hc : Nat.digitChar d = '-' := List.head_eq_of_cons_eq hdata
    exact absurd hc (digitChar_ne_minus d hd)
  · have hr : Nat.repr a.natAbs = Nat.repr b.natAbs := String.ext hdata
    have := repr_injective hr
    omega

/-! ## Conversions and the probe of signedness -/

theorem two_pow_pos (n : Nat) : (0 : Int) < 2 ^ n := by positivity

theorem convert_of_holds {t : CIntType} {v : Int} (ht : 0 < t.size)
    (h : if t.is_signed then -(2 : Int) ^ (t.bits - 1) ≤ v ∧ v < 2 ^ (t.bits - 1)
         else 0 ≤ v ∧ v < 2 ^ t.bits) :
    convert t v = v := by
  unfold convert
  have hb : 0 < t.bits := by unfold CIntType.bits; omega
  obtain ⟨m, hm⟩ : ∃ m, t.bits = m + 1 := ⟨t.bits - 1, by omega⟩
  have hpos := two_pow_pos m
  by_cases hs : t.is_signed = true
  · simp only [hs, if_true] at h ⊢
    rw [hm] at h ⊢
    simp only [Nat.add_sub_cancel, pow_succ] at h ⊢
    rw [Int.emod_eq_of_lt (by omega) (by omega)]
    omega
  · simp only [hs, if_false] at h ⊢
    exact Int.emod_eq_of_lt h.1 h.2

theorem convert_zero (t : CIntType) (ht : 0 < t.size) : convert t 0 = 0 := by
  apply convert_of_holds ht
  have h1 := two_pow_pos (t.bits - 1)
  have h2 := two_pow_pos t.bits
  split <;> constructor <;> omega

theorem neg_one_emod {m : Int} (hm : 0 < m) : (-1 : Int) % m = m - 1 := by
  have h : (-1 : Int) % m = (-1 + m) % m := (Int.add_emod_self).symm
  rw [h, Int.emod_eq_of_lt (by omega) (by omega)]
  omega

theorem convert_neg_one (t : CIntType) (ht : 0 < t.size) :
    convert t (-1) = if t.is_signed then -1 else 2 ^ t.bits - 1 := by
  cases hs : t.is_signed
  · simp only [Bool.false_eq_true, if_false]
    unfold convert
    simp only [hs, Bool.false_eq_true, if_false]
    exact neg_one_emod (two_pow_pos t.bits)
  · simp only [if_true]
    apply convert_of_holds ht
    have h1 := two_pow_pos (t.bits - 1)
    simp only [hs, if_true]
    constructor <;> omega

theorem convert_all_ones (t : CIntType) (ht : 0 < t.size) (hs : t.is_signed = false) :
    convert t (2 ^ t.bits - 1) = 2 ^ t.bits - 1 := by
  apply convert_of_holds ht
  have h2 := two_pow_pos t.bits
  simp only [hs, Bool.false_eq_true, if_false]
  constructor <;> omega

theorem complement_zero (P : Platform) (t : CIntType) (ht : 0 < t.size) :
    convert t (complement (promote P t) (convert t 0)) =
      if t.is_signed then -1 else 2 ^ t.bits - 1 := by
  have hnot : (~~~(0 : Int)) = -1 := rfl
  rw [convert_zero t ht]
  unfold complement promote
  rw [hnot]
  by_cases hn : t.size < P.sizeof_int
  · simp only [hn, if_true]
    have hint : 0 < P.int.size := by simp only [Platform.int]; omega
    rw [convert_neg_one P.int hint]
    simp only [Platform.int, if_true]
    exact convert_neg_one t ht
  · simp only [hn, if_false]
    rw [convert_neg_one t ht]
    cases hs : t.is_signed
    · simp only [Bool.false_eq_true, if_false]
      exact convert_all_ones t ht hs
    · simp only [if_true]
      rw [convert_neg_one t ht]
      simp only [hs, if_true]

theorem SET_ALL_BITS_eq (P : Platform) (t : CIntType) (ht : 0 < t.size) (lval : Int) :
    SET_ALL_BITS P t lval = if t.is_signed then -1 else 2 ^ t.bits - 1 := by
  unfold SET_ALL_BITS assign
  exact complement_zero P t ht

theorem IS_SIGNED_eq (P : Platform) (t : CIntType) (ht : 0 < t.size) :
    IS_SIGNED P t = if t.is_signed then 1 else 0 := by
  unfold IS_SIGNED
  rw [complement_zero P t ht, convert_zero t ht]
  have h2 := two_pow_pos t.bits
  cases hs : t.is_signed
  · simp only [Bool.false_eq_true, if_false]
    rw [if_neg (by omega)]
  · simp

/-- C10.  For every integer type of at least one byte (in particular of 8,
16, 32 or 64 bits), signed or unsigned, narrower than `int` or not: setting
every bit of a zero gives -1 in a signed type and `2^w - 1` in an unsigned
type, so that `IS_SIGNED` and the test `lval < 0` after `SET_ALL_BITS` both
answer "signed" exactly for the signed types; the answer does not depend on
what the l-value held before, so every repetition gives it again; and a type
that can hold the member `TEST1 = -1` is reported signed. -/
theorem signedness_probe (P : Platform) (t : CIntType) (lval lval₂ : Int)
    (hw : t.bits = 8 ∨ t.bits = 16 ∨ t.bits = 32 ∨ t.bits = 64) :
    (IS_SIGNED P t = 1 ↔ t.is_signed = true) ∧
    (IS_SIGNED P t = 0 ↔ t.is_signed = false) ∧
    (SET_ALL_BITS P t lval < 0 ↔ t.is_signed = true) ∧
    SET_ALL_BITS P t lval = (if t.is_signed then -1 else 2 ^ t.bits - 1) ∧
    convert t (complement (promote P t) (convert t 0)) = SET_ALL_BITS P t lval ∧
    SET_ALL_BITS P t lval₂ = SET_ALL_BITS P t lval ∧
    (convert t (-1) = -1 → IS_SIGNED P t = 1 ∧ SET_ALL_BITS P t lval < 0) := by
  have ht : 0 < t.size := by unfold CIntType.bits at hw; omega
  have h2 := two_pow_pos t.bits
  have hI := IS_SIGNED_eq P t ht
  have hS := SET_ALL_BITS_eq P t ht
  have hN := convert_neg_one t ht
  refine ⟨?_, ?_, ?_, hS lval, ?_, ?_, ?_⟩
  · rw [hI]; cases hs : t.is_signed <;> simp
  · rw [hI]; cases hs : t.is_signed <;> simp
  · rw [hS]; cases hs : t.is_signed
    · simp only [Bool.false_eq_true, if_false, iff_false]; omega
    · simp
  · rw [hS, complement_zero P t ht]
  · rw [hS, hS]
  · intro hrep
    rw [hN] at hrep
    cases hs : t.is_signed
    · simp only [hs, Bool.false_eq_true, if_false] at hrep
      omega
    · rw [hI, hS]
      simp [hs]

/-- Witness of C10: the type of `enum _test` on LP64, which holds -1 and is
reported signed, and the unsigned 16-bit type, narrower than `int`, whose
bits all set give 65535. -/
theorem signedness_probe_witness :
    (lp64.enum_test.bits = 32 ∧ convert lp64.enum_test (-1) = -1 ∧
      (⟨2, false⟩ : CIntType).bits = 16) ∧
    (IS_SIGNED lp64 lp64.enum_test = 1 ∧ SET_ALL_BITS lp64 lp64.enum_test 7 < 0) ∧
    (IS_SIGNED lp64 ⟨2, false⟩ = 0 ↔ (⟨2, false⟩ : CIntType).is_signed = false) ∧
    SET_ALL_BITS lp64 ⟨2, false⟩ 7 =
      (if (⟨2, false⟩ : CIntType).is_signed then -1
       else 2 ^ (⟨2, false⟩ : CIntType).bits - 1) :=
  ⟨⟨by decide, by decide, by decide⟩,
   (signedness_probe lp64 lp64.enum_test 7 9 (by decide)).2.2.2.2.2.2 (by decide),
   (signedness_probe lp64 ⟨2, false⟩ 7 9 (by decide)).2.1,
   (signedness_probe lp64 ⟨2, false⟩ 7 9 (by decide)).2.2.2.1⟩

/-! ## `print_integer_alias` -/

theorem convert_int_of_holds {P : Platform} {v : Int} (h : P.int_holds v) :
    convert P.int v = v := by
  apply convert_of_holds (t := P.int) h.1
  simp only [Platform.int, if_true]
  exact h.2

theorem print_integer_alias_fixed (P : Platform) (size is_signed : Int)
    (hP : case_labels_distinct P = true) (hsize : P.int_holds (8 * size)) :
    print_integer_alias P size is_signed 0 = some (fixed_width_name size is_signed) := by
  unfold print_integer_alias fixed_width_name
  rw [convert_int_of_holds hsize]
  by_cases hs : is_signed = 0 <;> simp [hP, hs]

theorem print_integer_alias_fallthrough (P : Platform) (size is_signed c_style : Int)
    (hP : case_labels_distinct P = true) (hsize : P.int_holds (8 * size))
    (h : print_integer_alias_switch P size is_signed = none) :
    print_integer_alias P size is_signed c_style = some (fixed_width_name size is_signed) := by
  unfold print_integer_alias fixed_width_name
  rw [convert_int_of_holds hsize, h]
  by_cases hs : is_signed = 0 <;> simp [hP, hs]

theorem print_integer_alias_isSome (P : Platform) (size is_signed c_style : Int)
    (hP : case_labels_distinct P = true) :
    ∃ name, print_integer_alias P size is_signed c_style = some name := by
  unfold print_integer_alias
  simp only [hP, if_true]
  split
  · exact ⟨_, rfl⟩
  · exact ⟨_, rfl⟩

theorem fixed_width_name_injective {size size₂ is_signed is_signed₂ : Int}
    (h : fixed_width_name size is_signed = fixed_width_name size₂ is_signed₂) :
    size = size₂ ∧ (is_signed ≠ 0 ↔ is_signed₂ ≠ 0) := by
  unfold fixed_width_name at h
  have hdata := congrArg String.data h
  by_cases hs : is_signed = 0 <;> by_cases hs₂ : is_signed₂ = 0 <;>
    simp only [hs, hs₂, ne_eq, not_true_eq_false, not_false_eq_true, if_true, if_false,
      String.data_append] at hdata
  · have hd : fmt_d (8 * size) = fmt_d (8 * size₂) :=
      String.ext (List.append_cancel_left hdata)
    have := fmt_d_injective hd
    exact ⟨by omega, by simp [hs, hs₂]⟩
  · exact absurd (List.head_eq_of_cons_eq hdata) (by decide)
  · exact absurd (List.head_eq_of_cons_eq hdata) (by decide)
  · have hd : fmt_d (8 * size) = fmt_d (8 * size₂) :=
      String.ext (List.append_cancel_left hdata)
    have := fmt_d_injective hd
    exact ⟨by omega, by simp [hs, hs₂]⟩

/-- C4.  On a platform where the program exists and for sizes whose bit count
`8*size` is an `int`, `print_integer_alias` called with `c_style = 0` writes
`Int` followed by the decimal value of `8*size` when the flag is set and
`UInt` followed by that value when it is not; two calls write the same name
exactly when they have the same size and the same signedness, whatever the
platforms. -/
theorem fixed_width_resolution (P P₂ : Platform) (size size₂ is_signed is_signed₂ : Int)
    (hP : case_labels_distinct P = true) (hP₂ : case_labels_distinct P₂ = true)
    (hsize : P.int_holds (8 * size)) (hsize₂ : P₂.int_holds (8 * size₂)) :
    print_integer_alias P size is_signed 0 =
      some (if is_signed ≠ 0 then "Int" ++ fmt_d (8 * size) else "UInt" ++ fmt_d (8 * size)) ∧
    (print_integer_alias P size is_signed 0 = print_integer_alias P₂ size₂ is_signed₂ 0 ↔
      size = size₂ ∧ (is_signed ≠ 0 ↔ is_signed₂ ≠ 0)) := by
  have h1 := print_integer_alias_fixed P size is_signed hP hsize
  have h2 := print_integer_alias_fixed P₂ size₂ is_signed₂ hP₂ hsize₂
  refine ⟨h1, ?_⟩
  rw [h1, h2]
  constructor
  · intro h
    exact fixed_width_name_injective (Option.some.inj h)
  · rintro ⟨rfl, hs⟩
    unfold fixed_width_name
    by_cases h0 : is_signed = 0
    · have : is_signed₂ = 0 := by
        by_contra hne
        exact (hs.2 hne) h0
      simp [h0, this]
    · have : is_signed₂ ≠ 0 := hs.1 h0
      simp [h0, this]

/-- Witness of C4: sizes 4 (signed) and 8 (unsigned) on LP64. -/
theorem fixed_width_resolution_witness :
    (case_labels_distinct lp64 = true ∧ lp64.int_holds (8 * 4) ∧ lp64.int_holds (8 * 8)) ∧
    (print_integer_alias lp64 4 1 0 =
      some (if (1 : Int) ≠ 0 then "Int" ++ fmt_d (8 * 4) else "UInt" ++ fmt_d (8 * 4)) ∧
     (print_integer_alias lp64 4 1 0 = print_integer_alias lp64 8 0 0 ↔
      (4 : Int) = 8 ∧ ((1 : Int) ≠ 0 ↔ (0 : Int) ≠ 0))) :=
  ⟨⟨by decide, by unfold Platform.int_holds; decide, by unfold Platform.int_holds; decide⟩,
   fixed_width_resolution lp64 lp64 4 8 1 0 (by decide) (by decide)
     (by unfold Platform.int_holds; decide) (by unfold Platform.int_holds; decide)⟩

/-- C6, as the code has it.  `print_integer_alias` checks no width and has no
failure path: for every size, in either style, it returns after writing a
name, and that name is `Int` or `UInt` followed by the decimal value of
`8*size` whenever the style is fixed-width or no primitive has the size (for
sizes whose bit count is an `int`) — also for a size such as 3, which is the
width of no built-in integer type. -/
theorem unrepresentable_width_is_named (P : Platform) (size is_signed c_style : Int)
    (hP : case_labels_distinct P = true) :
    (∃ name, print_integer_alias P size is_signed c_style = some name) ∧
    (P.int_holds (8 * size) →
      c_style = 0 ∨ (size ≠ P.sizeof_int ∧ size ≠ P.sizeof_long ∧ size ≠ P.sizeof_short ∧
        size ≠ P.sizeof_char) →
      print_integer_alias P size is_signed c_style =
        some (if is_signed ≠ 0 then "Int" ++ fmt_d (8 * size)
              else "UInt" ++ fmt_d (8 * size))) := by
  refine ⟨print_integer_alias_isSome P size is_signed c_style hP, ?_⟩
  intro hsize h
  rcases h with h | ⟨ha, hb, hc, hd⟩
  · subst h
    exact print_integer_alias_fixed P size is_signed hP hsize
  · exact print_integer_alias_fallthrough P size is_signed c_style hP hsize
      (by simp [print_integer_alias_switch, ha, hb, hc, hd])

/-- Witness of C6: a request for 3 bytes on LP64, in native-call style. -/
theorem unrepresentable_width_is_named_witness :
    case_labels_distinct lp64 = true ∧
    ((∃ name, print_integer_alias lp64 3 1 1 = some name) ∧
     (lp64.int_holds (8 * 3) →
      (1 : Int) = 0 ∨ ((3 : Int) ≠ lp64.sizeof_int ∧ (3 : Int) ≠ lp64.sizeof_long ∧
        (3 : Int) ≠ lp64.sizeof_short ∧ (3 : Int) ≠ lp64.sizeof_char) →
      print_integer_alias lp64 3 1 1 =
        some (if (1 : Int) ≠ 0 then "Int" ++ fmt_d (8 * 3) else "UInt" ++ fmt_d (8 * 3)))) :=
  ⟨by decide, unrepresentable_width_is_named lp64 3 1 1 (by decide)⟩

/-- C6 as stated fails: a request for 3 bytes, the width of no built-in
integer type, returns the name `Int24` (`UInt24` when unsigned) in both
styles instead of signalling a fatal condition. -/
theorem unrepresentable_width_counterexample :
    print_integer_alias lp64 3 1 0 = some "Int24" ∧
    print_integer_alias lp64 3 1 1 = some "Int24" ∧
    print_integer_alias lp64 3 0 0 = some "UInt24" ∧
    print_integer_alias lp64 3 0 1 = some "UInt24" := by
  decide

/-- C9.  For each of the eight integer rows of `ELTYPES`, whose sizes are 1,
1, 2, 2, 4, 4, 8 and 8 bytes, the name `print_integer_alias` writes in
fixed-width style for the size of the row and the signedness of its class is
the Julia name recorded in the row (Int8, UInt8, Int16, UInt16, Int32,
UInt32, Int64, UInt64), and the Julia type of that name has the size of the
row and the signedness of its class. -/
theorem registry_agrees_with_resolver (P : Platform) (L : TaoLib)
    (hP : case_labels_distinct P = true) (hint : P.int_holds 64) :
    ((ELTYPES P L).filter (fun r => r.cls = number_class.SIGNED ∨
        r.cls = number_class.UNSIGNED)).map (fun r => (r.cname, r.size, r.jname)) =
      [("int8_t", 1, "Int8"), ("uint8_t", 1, "UInt8"), ("int16_t", 2, "Int16"),
       ("uint16_t", 2, "UInt16"), ("int32_t", 4, "Int32"), ("uint32_t", 4, "UInt32"),
       ("int64_t", 8, "Int64"), ("uint64_t", 8, "UInt64")] ∧
    ∀ r ∈ ELTYPES P L, r.cls = number_class.SIGNED ∨ r.cls = number_class.UNSIGNED →
      print_integer_alias P r.size (if r.cls = number_class.SIGNED then 1 else 0) 0 =
        some r.jname ∧
      julia_integer_type r.jname =
        some ⟨r.size, decide (r.cls = number_class.SIGNED)⟩ := by
  have hholds : ∀ v : Int, 0 ≤ v → v ≤ 64 → P.int_holds v := by
    intro v h0 h64
    exact ⟨hint.1, by have := two_pow_pos (P.int.bits - 1); omega, by have := hint.2.2; omega⟩
  refine ⟨by simp [ELTYPES], ?_⟩
  intro r hr hcls
  simp only [ELTYPES, List.mem_cons, List.mem_singleton, List.not_mem_nil, or_false] at hr
  rcases hr with rfl | rfl | rfl | rfl | rfl | rfl | rfl | rfl | rfl | rfl
  all_goals first
    | (simp at hcls; done)
    | (dsimp only
       refine ⟨?_, by decide⟩
       rw [print_integer_alias_fixed P _ _ hP (hholds _ (by norm_num) (by norm_num))]
       simp only [fixed_width_name]
       decide)

/-- Witness of C9: the rows of the table on LP64. -/
theorem registry_agrees_with_resolver_witness :
    (case_labels_distinct lp64 = true ∧ lp64.int_holds 64) ∧
    (((ELTYPES lp64 tao).filter (fun r => r.cls = number_class.SIGNED ∨
        r.cls = number_class.UNSIGNED)).map (fun r => (r.cname, r.size, r.jname)) =
      [("int8_t", 1, "Int8"), ("uint8_t", 1, "UInt8"), ("int16_t", 2, "Int16"),
       ("uint16_t", 2, "UInt16"), ("int32_t", 4, "Int32"), ("uint32_t", 4, "UInt32"),
       ("int64_t", 8, "Int64"), ("uint64_t", 8, "UInt64")] ∧
    ∀ r ∈ ELTYPES lp64 tao, r.cls = number_class.SIGNED ∨ r.cls = number_class.UNSIGNED →
      print_integer_alias lp64 r.size (if r.cls = number_class.SIGNED then 1 else 0) 0 =
        some r.jname ∧
      julia_integer_type r.jname =
        some ⟨r.size, decide (r.cls = number_class.SIGNED)⟩) :=
  ⟨⟨by decide, by unfold Platform.int_holds; decide⟩,
   registry_agrees_with_resolver lp64 tao (by decide) (by unfold Platform.int_holds; decide)⟩

/-! ## The loops over the table of element types -/

theorem count_ntypes_types_of (rows : List Row) (tail : List TypeEntry) (k : Nat) :
    count_ntypes (rows.map ITEM ++ sentinel :: tail) k = some (k + rows.length) := by
  induction rows generalizing k with
  | nil => simp [count_ntypes, sentinel]
  | cons r rest ih =>
    simp only [List.map_cons, List.cons_append, count_ntypes, ITEM, List.length_cons,
      List.append_eq]
    rw [if_pos (by simp), ih]
    congr 1
    omega

theorem count_ntypes_eq (rows : List Row) :
    count_ntypes (types_of rows) 0 = some rows.length := by
  have := count_ntypes_types_of rows [] 0
  simpa [types_of] using this

theorem types_of_getElem? (rows : List Row) (i : Nat) (h : i < rows.length) :
    (types_of rows)[i]? = some (ITEM rows[i]) := by
  unfold types_of
  rw [List.getElem?_append_left (by simpa using h)]
  simp [h]

theorem for_loop_concat (body : Nat → Option String) (l : List String) :
    ∀ start, (∀ k (h : k < l.length), body (start + k) = some l[k]) →
      for_loop body start l.length = some (concat l) := by
  induction l with
  | nil => intro start _; rfl
  | cons a rest ih =>
    intro start h
    have h0 := h 0 (by simp)
    simp only [Nat.add_zero, List.getElem_cons_zero] at h0
    have hrest := ih (start + 1) (by
      intro k hk
      have := h (k + 1) (by simpa using hk)
      simpa [Nat.add_assoc, Nat.add_comm 1 k] using this)
    simp only [List.length_cons, for_loop, h0, hrest, concat]

theorem for_loop_separated (indent : String) (body : Nat → Option String) (l : List String) :
    ∀ start, (∀ k (h : k < l.length),
        body (start + k) = some (separator indent (start + k) ++ l[k])) →
      for_loop body start l.length = some (separated_from indent start l) := by
  induction l with
  | nil => intro start _; rfl
  | cons a rest ih =>
    intro start h
    have h0 := h 0 (by simp)
    simp only [Nat.add_zero, List.getElem_cons_zero] at h0
    have hrest := ih (start + 1) (by
      intro k hk
      have := h (k + 1) (by simpa using hk)
      simpa [Nat.add_assoc, Nat.add_comm 1 k] using this)
    simp only [List.length_cons, for_loop, h0, hrest, separated_from]

theorem emit_union_eq (rows : List Row) :
    emit_union (types_of rows) rows.length =
      some (separated_from union_indent 0 (rows.map Row.jname)) := by
  have := for_loop_separated union_indent (union_body (types_of rows)) (rows.map Row.jname) 0 (by
    intro k hk
    have hk₂ : k < rows.length := by simpa using hk
    simp [union_body, types_of_getElem? rows k hk₂, fputs, ITEM])
  simpa [emit_union] using this

theorem tuple_search_eq (rows : List Row) (i : Nat) :
    ∀ count j, j + count = rows.length →
      tuple_search (types_of rows) i j count =
        some (((rows.drop j).find? (fun r => decide (r.id = (i : Int) + 1))).isSome,
              (((rows.drop j).find? (fun r => decide (r.id = (i : Int) + 1))).map
                Row.jname).getD "") := by
  intro count
  induction count with
  | zero =>
    intro j hj
    have : rows.drop j = [] := List.drop_eq_nil_of_le (by omega)
    simp [tuple_search, this]
  | succ count ih =>
    intro j hj
    have hlt : j < rows.length := by omega
    rw [List.drop_eq_getElem_cons hlt]
    simp only [tuple_search, types_of_getElem? rows j hlt, List.find?_cons]
    by_cases hid : rows[j].id = (i : Int) + 1
    · simp [ITEM, hid, fputs]
    · have := ih (j + 1) (by omega)
      simp [ITEM, hid, this]

theorem name_or_nothing_eq (x : Option Row) (sep : String) :
    (sep ++ (x.map Row.jname).getD "" ++ if (!x.isSome) = true then "Nothing" else "") =
      sep ++ name_or_nothing x := by
  cases x <;> simp [name_or_nothing, String.append_assoc]

theorem tuple_body_eq (rows : List Row) (i : Nat) :
    tuple_body (types_of rows) rows.length i =
      some (separator tuple_indent i ++ tuple_element rows (i + 1)) := by
  unfold tuple_body tuple_element
  rw [tuple_search_eq rows i rows.length 0 (by omega)]
  simp only [List.drop_zero, Nat.cast_add, Nat.cast_one]
  exact congrArg some (name_or_nothing_eq _ _)

theorem emit_tuple_eq (rows : List Row) :
    emit_tuple (types_of rows) rows.length =
      some (separated_from tuple_indent 0 (tuple_elements rows)) := by
  have := for_loop_separated tuple_indent (tuple_body (types_of rows) rows.length)
    (tuple_elements rows) 0 (by
      intro k hk
      simp [tuple_body_eq, tuple_elements])
  simpa [emit_tuple, tuple_elements] using this

theorem emit_shared_array_eltype_eq (P : Platform) (rows : List Row) :
    emit_shared_array_eltype P (types_of rows) rows.length =
      some (concat (rows.map (fun r => dispatch_clause r.jname (convert P.int r.id))) ++
        dispatch_fallback) := by
  have := for_loop_concat (dispatch_body P (types_of rows))
    (rows.map (fun r => dispatch_clause r.jname (convert P.int r.id))) 0 (by
      intro k hk
      have hk₂ : k < rows.length := by simpa using hk
      simp [dispatch_body, types_of_getElem? rows k hk₂, ITEM, dispatch_clause])
  simp only [List.length_map] at this
  simp [emit_shared_array_eltype, this]

theorem find?_position (rows : List Row)
    (hid : ∀ k (h : k < rows.length), rows[k].id = (k : Int) + 1) (k : Nat)
    (hk : k < rows.length) :
    rows.find? (fun r => decide (r.id = ((k + 1 : Nat) : Int))) = some rows[k] := by
  rw [List.find?_eq_some_iff_getElem]
  refine ⟨by simp [hid k hk], k, hk, rfl, ?_⟩
  intro j hj
  have := hid j (by omega)
  simp only [this, Bool.not_eq_eq_eq_not, Bool.not_true, decide_eq_false_iff_not]
  push_cast
  omega

/-- C7.  For every table of `n` rows, whatever the names and the
identifiers: the counting loop finds `n`; the loop of lines 379-397 writes
the `n` elements of `tuple_elements`, each behind its separator; the element
of position `i`, for `1 ≤ i ≤ n`, is the Julia name of the first row whose
identifier equals `i`, or `Nothing` when no row has it; the loop of lines
366-373 writes the Julia names of the rows in the order of the table; and
when the identifier of every row is its position, counted from 1, the
elements of the tuple are those names in that order. -/
theorem tuple_by_identifier (rows : List Row) :
    count_ntypes (types_of rows) 0 = some rows.length ∧
    emit_tuple (types_of rows) rows.length =
      some (separated_from tuple_indent 0 (tuple_elements rows)) ∧
    (tuple_elements rows).length = rows.length ∧
    (∀ i, 1 ≤ i → i ≤ rows.length →
      (tuple_elements rows)[i - 1]? =
        some (name_or_nothing (rows.find? (fun r => decide (r.id = (i : Int)))))) ∧
    emit_union (types_of rows) rows.length =
      some (separated_from union_indent 0 (rows.map Row.jname)) ∧
    ((∀ k (h : k < rows.length), rows[k].id = (k : Int) + 1) →
      tuple_elements rows = rows.map Row.jname) := by
  refine ⟨count_ntypes_eq rows, emit_tuple_eq rows, by simp [tuple_elements], ?_,
    emit_union_eq rows, ?_⟩
  · intro i h1 hn
    have hlt : i - 1 < rows.length := by omega
    have hi : i - 1 + 1 = i := by omega
    have hc : ((i - 1 : Nat) : Int) + 1 = (i : Int) := by omega
    simp [tuple_elements, tuple_element, hlt, hi, hc]
  · intro hid
    apply List.ext_getElem (by simp [tuple_elements])
    intro k h1 h2
    have hk : k < rows.length := by simpa [tuple_elements] using h1
    simp only [tuple_elements, tuple_element, List.getElem_map, List.getElem_range]
    rw [find?_position rows hid k hk]
    rfl

/-- Witness of C7: a table whose identifiers are 2, 2 and 7.  Position 2
holds the first of the two rows with identifier 2; positions 1 and 3 hold the
placeholder. -/
theorem tuple_by_identifier_witness :
    emit_tuple (types_of sparse_rows) sparse_rows.length =
      some (separated_from tuple_indent 0 (tuple_elements sparse_rows)) ∧
    tuple_elements sparse_rows = ["Nothing", "Int8", "Nothing"] ∧
    separated_from tuple_indent 0 (tuple_elements sparse_rows) = "Nothing, Int8, Nothing" :=
  ⟨(tuple_by_identifier sparse_rows).2.1, by decide, by decide⟩

/-- C8, as the code has it.  For every table, the lines 406-411 write one
method of `shared_array_eltype` per row, in the order of the table, each
mapping the Julia name of the row to the identifier of the row converted to
`int`, which is the identifier itself whenever an `int` holds it, and after
them the one catch-all method that raises an error.  For the table `ELTYPES`
the counting loop finds ten rows, their ten Julia names are Int8, UInt8,
Int16, UInt16, Int32, UInt32, Int64, UInt64, Cfloat and Cdouble, pairwise
distinct, and the ten methods map them to the ten identifiers of the library,
converted to `int`. -/
theorem dispatch_clauses (rows : List Row) (P : Platform) (L : TaoLib) :
    count_ntypes (types_of rows) 0 = some rows.length ∧
    emit_shared_array_eltype P (types_of rows) rows.length =
      some (concat (rows.map (fun r =>
          "shared_array_eltype(::Type\x7b" ++ r.jname ++ "\x7d) = Cint(" ++
            fmt_d (convert P.int r.id) ++ ")\n")) ++
        "@noinline shared_array_eltype(::Type\x7bT\x7d) where T =\n    error(\"unsupported element type \", T)\n") ∧
    (∀ v : Int, P.int_holds v → convert P.int v = v) ∧
    count_ntypes (types P L) 0 = some 10 ∧
    (ELTYPES P L).map (fun r => (r.jname, r.id)) =
      [("Int8", L.TAO_INT8), ("UInt8", L.TAO_UINT8), ("Int16", L.TAO_INT16),
       ("UInt16", L.TAO_UINT16), ("Int32", L.TAO_INT32), ("UInt32", L.TAO_UINT32),
       ("Int64", L.TAO_INT64), ("UInt64", L.TAO_UINT64), ("Cfloat", L.TAO_FLOAT),
       ("Cdouble", L.TAO_DOUBLE)] ∧
    ((ELTYPES P L).map Row.jname).Nodup ∧
    emit_shared_array_eltype P (types P L) 10 =
      some (concat [
          "shared_array_eltype(::Type\x7bInt8\x7d) = Cint(" ++
            fmt_d (convert P.int L.TAO_INT8) ++ ")\n",
          "shared_array_eltype(::Type\x7bUInt8\x7d) = Cint(" ++
            fmt_d (convert P.int L.TAO_UINT8) ++ ")\n",
          "shared_array_eltype(::Type\x7bInt16\x7d) = Cint(" ++
            fmt_d (convert P.int L.TAO_INT16) ++ ")\n",
          "shared_array_eltype(::Type\x7bUInt16\x7d) = Cint(" ++
            fmt_d (convert P.int L.TAO_UINT16) ++ ")\n",
          "shared_array_eltype(::Type\x7bInt32\x7d) = Cint(" ++
            fmt_d (convert P.int L.TAO_INT32) ++ ")\n",
          "shared_array_eltype(::Type\x7bUInt32\x7d) = Cint(" ++
            fmt_d (convert P.int L.TAO_UINT32) ++ ")\n",
          "shared_array_eltype(::Type\x7bInt64\x7d) = Cint(" ++
            fmt_d (convert P.int L.TAO_INT64) ++ ")\n",
          "shared_array_eltype(::Type\x7bUInt64\x7d) = Cint(" ++
            fmt_d (convert P.int L.TAO_UINT64) ++ ")\n",
          "shared_array_eltype(::Type\x7bCfloat\x7d) = Cint(" ++
            fmt_d (convert P.int L.TAO_FLOAT) ++ ")\n",
          "shared_array_eltype(::Type\x7bCdouble\x7d) = Cint(" ++
            fmt_d (convert P.int L.TAO_DOUBLE) ++ ")\n" ] ++
        "@noinline shared_array_eltype(::Type\x7bT\x7d) where T =\n    error(\"unsupported element type \", T)\n") := by
  refine ⟨count_ntypes_eq rows, ?_, fun v hv => convert_int_of_holds hv, ?_, rfl, ?_, ?_⟩
  · rw [emit_shared_array_eltype_eq P rows]
    rfl
  · exact count_ntypes_eq (ELTYPES P L)
  · simp only [ELTYPES, List.map_cons, List.map_nil]
    decide
  · have h := emit_shared_array_eltype_eq P (ELTYPES P L)
    rw [show (ELTYPES P L).length = 10 from rfl] at h
    rw [types, h]
    rfl

/-- Witness of C8: the ten methods written for the sample library on LP64,
whose identifiers 1 to 10 an `int` holds. -/
theorem dispatch_clauses_witness :
    lp64.int_holds 10 ∧ convert lp64.int 10 = 10 ∧
    emit_shared_array_eltype lp64 (types lp64 tao) 10 =
      some ("shared_array_eltype(::Type\x7bInt8\x7d) = Cint(1)\n" ++
        "shared_array_eltype(::Type\x7bUInt8\x7d) = Cint(2)\n" ++
        "shared_array_eltype(::Type\x7bInt16\x7d) = Cint(3)\n" ++
        "shared_array_eltype(::Type\x7bUInt16\x7d) = Cint(4)\n" ++
        "shared_array_eltype(::Type\x7bInt32\x7d) = Cint(5)\n" ++
        "shared_array_eltype(::Type\x7bUInt32\x7d) = Cint(6)\n" ++
        "shared_array_eltype(::Type\x7bInt64\x7d) = Cint(7)\n" ++
        "shared_array_eltype(::Type\x7bUInt64\x7d) = Cint(8)\n" ++
        "shared_array_eltype(::Type\x7bCfloat\x7d) = Cint(9)\n" ++
        "shared_array_eltype(::Type\x7bCdouble\x7d) = Cint(10)\n" ++
        "@noinline shared_array_eltype(::Type\x7bT\x7d) where T =\n    error(\"unsupported element type \", T)\n") :=
  ⟨by unfold Platform.int_holds; decide,
   (dispatch_clauses [] lp64 tao).2.2.1 10 (by unfold Platform.int_holds; decide),
   by
    rw [(dispatch_clauses [] lp64 tao).2.2.2.2.2.2]
    set_option maxRecDepth 100000 in decide⟩

/-- C8 as stated fails: with an `int` of four bytes and a library whose
identifier of `double` is 4294967295, both assertions of `main` hold and the
method written for `Cdouble` maps it to -1, not to its identifier. -/
theorem dispatch_identifier_counterexample :
    lp64.sizeof_int = tao_wide_double.sizeof_tao_object_type ∧
    lp64.sizeof_int = tao_wide_double.sizeof_tao_eltype ∧
    (types lp64 tao_wide_double)[9]?.map (fun e => (e.jname, e.id)) =
      some (some "Cdouble", 4294967295) ∧
    dispatch_body lp64 (types lp64 tao_wide_double) 9 =
      some "shared_array_eltype(::Type\x7bCdouble\x7d) = Cint(-1)\n" ∧
    dispatch_body lp64 (types lp64 tao_wide_double) 9 ≠
      some "shared_array_eltype(::Type\x7bCdouble\x7d) = Cint(4294967295)\n" := by
  decide

/-! ## `main` -/

theorem PRINT_TYPE_ALIAS_isSome (P : Platform) (t : CIntType) (style : Int)
    (hP : case_labels_distinct P = true) :
    ∃ name, PRINT_TYPE_ALIAS P t style = some name :=
  print_integer_alias_isSome P _ _ _ hP

theorem DEFINE_TYPEOF_FIELD_isSome (P : Platform) (name : String) (t : CIntType)
    (hP : case_labels_distinct P = true) :
    ∃ line, DEFINE_TYPEOF_FIELD P name t = some line := by
  unfold DEFINE_TYPEOF_FIELD DEFINE_FIELD_ALIAS DEFINE_LVALUE_ALIAS PRINT_LVALUE_ALIAS
  obtain ⟨a, ha⟩ := print_integer_alias_isSome P t.size
    (if SET_ALL_BITS P t P.uninitialised < 0 then 1 else 0) 0 hP
  simp only [ha]
  exact ⟨_, rfl⟩

theorem generate_isSome (P : Platform) (L : TaoLib) (hP : case_labels_distinct P = true) :
    ∃ rest, generate P L = some (banner ++ rest) := by
  obtain ⟨a1, h1⟩ := PRINT_TYPE_ALIAS_isSome P L.tao_status 1 hP
  obtain ⟨a2, h2⟩ := PRINT_TYPE_ALIAS_isSome P L.tao_shmid 0 hP
  obtain ⟨a3, h3⟩ := PRINT_TYPE_ALIAS_isSome P P.enum_test 1 hP
  obtain ⟨a4, h4⟩ := DEFINE_TYPEOF_FIELD_isSome P "timespec_sec" P.timespec_tv_sec hP
  obtain ⟨a5, h5⟩ := DEFINE_TYPEOF_FIELD_isSome P "timespec_nsec" P.timespec_tv_nsec hP
  have hn := count_ntypes_eq (ELTYPES P L)
  have hu := emit_union_eq (ELTYPES P L)
  have ht := emit_tuple_eq (ELTYPES P L)
  have hd := emit_shared_array_eltype_eq P (ELTYPES P L)
  unfold generate
  simp only [types, hn, h1, h2, h3, h4, h5, hu, ht, hd, Option.bind_eq_bind, Option.some_bind,
    Option.pure_def]
  exact ⟨_, rfl⟩

theorem banner_append_ne_empty (rest : String) : banner ++ rest ≠ "" := by
  intro h
  have hdata := congrArg String.data h
  rw [String.data_append] at hdata
  have hb : ∃ c l, banner.data = c :: l := by
    unfold banner
    simp only [String.data_append]
    exact ⟨'#', _, rfl⟩
  obtain ⟨c, l, hb⟩ := hb
  rw [hb] at hdata
  exact absurd hdata (by simp)

theorem main_generates (P : Platform) (L : TaoLib) (argv : List String)
    (hP : case_labels_distinct P = true) (hargs : argv.length ≤ 1)
    (hobj : P.sizeof_int = L.sizeof_tao_object_type)
    (helt : P.sizeof_int = L.sizeof_tao_eltype) :
    ∃ text, generate P L = some text ∧ text ≠ "" ∧
      main P L argv = some { status := 0, stdout := text, stderr := "" } := by
  obtain ⟨rest, hrest⟩ := generate_isSome P L hP
  refine ⟨banner ++ rest, hrest, banner_append_ne_empty rest, ?_⟩
  unfold main
  have h2 : ¬ argv.length = 2 := by omega
  have h1 : ¬ argv.length > 1 := by omega
  simp only [hP, if_true, h2, false_and, if_false, h1, hrest]
  rw [if_neg (by simpa using hobj), if_neg (by simpa using helt)]

theorem main_assert_fails (P : Platform) (L : TaoLib) (argv : List String)
    (hP : case_labels_distinct P = true) (hargs : argv.length ≤ 1)
    (hfail : P.sizeof_int ≠ L.sizeof_tao_object_type ∨ P.sizeof_int ≠ L.sizeof_tao_eltype) :
    main P L argv = some (ASSERT_failed P ""
      (if P.sizeof_int ≠ L.sizeof_tao_object_type then "sizeof(int) == sizeof(tao_object_type)"
       else "sizeof(int) == sizeof(tao_eltype)") "main"
      (if P.sizeof_int ≠ L.sizeof_tao_object_type then 236 else 237)) := by
  unfold main
  have h2 : ¬ argv.length = 2 := by omega
  have h1 : ¬ argv.length > 1 := by omega
  simp only [hP, if_true, h2, false_and, if_false, h1]
  by_cases hobj : P.sizeof_int = L.sizeof_tao_object_type
  · have helt : P.sizeof_int ≠ L.sizeof_tao_eltype := by
      rcases hfail with h | h
      · exact absurd hobj h
      · exact h
    have helt₂ : L.sizeof_tao_object_type ≠ L.sizeof_tao_eltype := hobj ▸ helt
    simp [hobj, helt₂]
  · simp [hobj]

theorem main_usage (P : Platform) (L : TaoLib) (argv : List String)
    (hP : case_labels_distinct P = true) (hargs : 1 < argv.length) :
    main P L argv = some (usage argv
      (if argv.length = 2 ∧ (argv[1]? = some "--help" ∨ argv[1]? = some "-h") then 0 else 1)) := by
  unfold main
  simp only [hP, if_true]
  split
  · rfl
  · rfl

/-- C1, as the code has it.  With no argument on the command line, `main`
compares the size of `int` with the sizes of `tao_object_type` and of
`tao_eltype`: when it differs from either, the run ends with a non-zero exit
code and nothing is written to the output; when it equals both, the run ends
with the exit code 0 and the output is written, whatever the size of
`tao_status`, which is measured and not checked. -/
theorem validation_checks_object_type_and_eltype (P : Platform) (L : TaoLib)
    (argv : List String) (hP : case_labels_distinct P = true) (hargs : argv.length ≤ 1) :
    ((P.sizeof_int ≠ L.sizeof_tao_object_type ∨ P.sizeof_int ≠ L.sizeof_tao_eltype) →
      ∃ o, main P L argv = some o ∧ o.status ≠ 0 ∧ o.stdout = "") ∧
    ((P.sizeof_int = L.sizeof_tao_object_type ∧ P.sizeof_int = L.sizeof_tao_eltype) →
      ∃ o, main P L argv = some o ∧ o.status = 0 ∧ o.stdout ≠ "" ∧
        generate P L = some o.stdout) := by
  constructor
  · intro hfail
    exact ⟨_, main_assert_fails P L argv hP hargs hfail,
      by simp [ASSERT_failed, EXIT_FAILURE], rfl⟩
  · rintro ⟨hobj, helt⟩
    obtain ⟨text, hgen, hne, hmain⟩ := main_generates P L argv hP hargs hobj helt
    exact ⟨_, hmain, rfl, hne, hgen⟩

/-- Witness of C1: LP64 and a library whose `tao_status` has one byte. -/
theorem validation_checks_object_type_and_eltype_witness :
    (case_labels_distinct lp64 = true ∧ ["gendeps"].length ≤ 1) ∧
    ∃ o, main lp64 tao_short_status ["gendeps"] = some o ∧ o.status = 0 ∧ o.stdout ≠ "" ∧
      generate lp64 tao_short_status = some o.stdout :=
  ⟨⟨by decide, by decide⟩,
   (validation_checks_object_type_and_eltype lp64 tao_short_status ["gendeps"]
      (by decide) (by decide)).2 ⟨by decide, by decide⟩⟩

/-- C1 as stated fails: with a result-status enumeration of one byte and an
`int` of four, the size of `int` differs from that of `tao_status` and yet
the run ends with the exit code 0 and writes its output. -/
theorem status_width_unchecked_counterexample :
    lp64.sizeof_int ≠ tao_short_status.tao_status.size ∧
    ∃ o, main lp64 tao_short_status ["gendeps"] = some o ∧ o.status = 0 ∧ o.stdout ≠ "" := by
  refine ⟨by decide, ?_⟩
  obtain ⟨text, _, hne, hmain⟩ := main_generates lp64 tao_short_status ["gendeps"]
    (by decide) (by decide) (by decide) (by decide)
  exact ⟨_, hmain, rfl, hne⟩

/-- C2.  In a run with no argument on the command line in which one of the
two assertions of `main` fails, the process ends with the exit code
`EXIT_FAILURE`, which is not zero, the text written to the output stream is
empty, and the error stream holds the message of the first assertion that
fails. -/
theorem validation_failure_is_atomic (P : Platform) (L : TaoLib) (argv : List String)
    (hP : case_labels_distinct P = true) (hargs : argv.length ≤ 1)
    (hfail : P.sizeof_int ≠ L.sizeof_tao_object_type ∨ P.sizeof_int ≠ L.sizeof_tao_eltype) :
    ∃ o, main P L argv = some o ∧ o.status = EXIT_FAILURE ∧ EXIT_FAILURE ≠ 0 ∧
      o.stdout = "" ∧
      o.stderr = "Assertion \x60" ++
        (if P.sizeof_int ≠ L.sizeof_tao_object_type then "sizeof(int) == sizeof(tao_object_type)"
         else "sizeof(int) == sizeof(tao_eltype)") ++ "\x27 failed in main (" ++ P.file ++ ":" ++
        (if P.sizeof_int ≠ L.sizeof_tao_object_type then "236" else "237") ++ ").\n" := by
  refine ⟨_, main_assert_fails P L argv hP hargs hfail, rfl, by decide, rfl, ?_⟩
  by_cases hobj : P.sizeof_int = L.sizeof_tao_object_type
  · simp only [hobj, ne_eq, not_true_eq_false, if_false, ASSERT_failed]
    rfl
  · simp only [hobj, ne_eq, not_false_eq_true, if_true, ASSERT_failed]
    rfl

/-- Witness of C2: LP64 and a library whose `tao_eltype` has one byte. -/
theorem validation_failure_is_atomic_witness :
    (case_labels_distinct lp64 = true ∧ ["gendeps"].length ≤ 1 ∧
      (lp64.sizeof_int ≠ tao_short_eltype.sizeof_tao_object_type ∨
       lp64.sizeof_int ≠ tao_short_eltype.sizeof_tao_eltype)) ∧
    ∃ o, main lp64 tao_short_eltype ["gendeps"] = some o ∧ o.status = EXIT_FAILURE ∧
      EXIT_FAILURE ≠ 0 ∧ o.stdout = "" ∧
      o.stderr = "Assertion \x60" ++
        (if lp64.sizeof_int ≠ tao_short_eltype.sizeof_tao_object_type
         then "sizeof(int) == sizeof(tao_object_type)"
         else "sizeof(int) == sizeof(tao_eltype)") ++ "\x27 failed in main (" ++ lp64.file ++
        ":" ++ (if lp64.sizeof_int ≠ tao_short_eltype.sizeof_tao_object_type then "236"
                else "237") ++ ").\n" :=
  ⟨⟨by decide, by decide, by decide⟩,
   validation_failure_is_atomic lp64 tao_short_eltype ["gendeps"] (by decide) (by decide)
     (by decide)⟩

/-- C3, as the code has it.  With no argument, and the two assertions of
`main` holding, generation runs and the exit code is 0; with the single
argument `--help` or `-h` the usage message is written to the error stream
and the exit code is 0; with any other argument or arguments the usage
message is written to the error stream and the exit code is 1; in the two
usage cases nothing is written to the output stream. -/
theorem command_line_handling (P : Platform) (L : TaoLib) (argv : List String)
    (hP : case_labels_distinct P = true) :
    (argv.length ≤ 1 → P.sizeof_int = L.sizeof_tao_object_type →
      P.sizeof_int = L.sizeof_tao_eltype →
      ∃ text, generate P L = some text ∧ text ≠ "" ∧
        main P L argv = some { status := 0, stdout := text, stderr := "" }) ∧
    (∀ prog, argv = [prog, "--help"] ∨ argv = [prog, "-h"] →
      main P L argv =
        some { status := 0, stdout := "", stderr := "Usage: " ++ prog ++ " [--help|-h]\n" }) ∧
    (1 < argv.length → (∀ prog, argv ≠ [prog, "--help"] ∧ argv ≠ [prog, "-h"]) →
      main P L argv =
        some { status := 1, stdout := "",
               stderr := "Usage: " ++ argv.headD "" ++ " [--help|-h]\n" }) := by
  refine ⟨?_, ?_, ?_⟩
  · intro hargs hobj helt
    exact main_generates P L argv hP hargs hobj helt
  · rintro prog (rfl | rfl)
    · rw [main_usage P L _ hP (by simp)]
      simp [usage]
    · rw [main_usage P L _ hP (by simp)]
      simp [usage]
  · intro hargs hother
    rw [main_usage P L argv hP hargs]
    have hcond : ¬ (argv.length = 2 ∧ (argv[1]? = some "--help" ∨ argv[1]? = some "-h")) := by
      rintro ⟨hlen, hopt⟩
      match argv, hlen with
      | [a, b], _ =>
        simp only [List.getElem?_cons_succ, List.getElem?_cons_zero, Option.some.injEq] at hopt
        rcases hopt with rfl | rfl
        · exact (hother a).1 rfl
        · exact (hother a).2 rfl
    rw [if_neg hcond]
    rfl

/-- Witness of C3: the three kinds of command line on LP64. -/
theorem command_line_handling_witness :
    case_labels_distinct lp64 = true ∧
    (∃ text, generate lp64 tao = some text ∧ text ≠ "" ∧
      main lp64 tao ["gendeps"] = some { status := 0, stdout := text, stderr := "" }) ∧
    main lp64 tao ["gendeps", "-h"] =
      some { status := 0, stdout := "", stderr := "Usage: " ++ "gendeps" ++ " [--help|-h]\n" } ∧
    main lp64 tao ["gendeps", "-h", "--help"] =
      some { status := 1, stdout := "",
             stderr := "Usage: " ++ ["gendeps", "-h", "--help"].headD "" ++ " [--help|-h]\n" } :=
  ⟨by decide,
   (command_line_handling lp64 tao ["gendeps"] (by decide)).1 (by decide) (by decide)
     (by decide),
   (command_line_handling lp64 tao ["gendeps", "-h"] (by decide)).2.1 "gendeps" (Or.inr rfl),
   (command_line_handling lp64 tao ["gendeps", "-h", "--help"] (by decide)).2.2 (by decide)
     (by intro prog; constructor <;> simp)⟩

/-- C3 as stated fails: with no argument, on a platform where `tao_eltype`
has one byte and `int` four, generation does not run and the exit code is
`EXIT_FAILURE`, not 0. -/
theorem zero_arguments_counterexample :
    ["gendeps"].length = 1 ∧
    ∃ o, main lp64 tao_short_eltype ["gendeps"] = some o ∧ o.status = 1 ∧ o.status ≠ 0 ∧
      o.stdout = "" := by
  refine ⟨rfl, _, main_assert_fails lp64 tao_short_eltype ["gendeps"] (by decide) (by decide)
    (by decide), rfl, by decide, rfl⟩

end Gendeps
